import Mathlib

/-!
# strikememongo: startup classifier, startup coordinator and teardown

A shallow embedding of `main.go` (package `strikememongo`).

* Go `string` values are Lean `String`s; the regular expressions of the source
  contain only ASCII literals, `.`, `\s` and `\d`.
* `error` values are their message text; `nil` is `none`.
* Go `int` is `Int`; `strconv.Atoi` rejects what does not fit `intSize` bits.
* `regexp`, `strconv`, `strings` are library code: the fragment of their
  behaviour that the source uses is modelled below.  `strings.ToLower` is kept
  as a parameter (`ToLower`), so that every theorem holds for the Unicode
  lower-casing whatever its table is.
* Goroutines and channels are sequentialised: the classifier is a loop over the
  lines its scanner delivers, and what it sends on `portChan` and `errChan` is
  the list of messages it produces, in order.
* Logger calls at debug and info level do not influence control flow and are
  left out; warnings are kept in the trace of `StartWithOptions` and `Stop`.
-/

namespace Strikememongo

/-! ## The fragment of `regexp` used by the source -/

/-- Capture groups: group number and the text it matched, most recent first. -/
abbrev Caps := List (Nat × List Char)

/-- Regular expressions, as far as the six patterns of `main.go` need them. -/
inductive Re where
  | empty
  | cls (p : Char → Bool)
  | seq (a b : Re)
  | alt (a b : Re)
  | star (a : Re) (greedy : Bool)
  | group (i : Nat) (a : Re)

/-- The class of `.`: any character but a newline. -/
def isDot (c : Char) : Bool := c != '\n'

/-- The Perl class `\s`, which is `[\t\n\f\r ]` in Go. -/
def isSpace (c : Char) : Bool :=
  c == '\t' || c == '\n' || c == Char.ofNat 12 || c == '\r' || c == ' '

/-- The Perl class `\d`, which is `[0-9]` in Go. -/
def isDigit (c : Char) : Bool := decide ('0' ≤ c) && decide (c ≤ '9')

namespace Re

/-- A literal character. -/
def chr (c : Char) : Re := cls (fun x => x == c)

/-- A literal string. -/
def str (s : String) : Re := s.data.foldr (fun c r => seq (chr c) r) empty

/-- The repetition `a+`. -/
def plus (a : Re) : Re := seq a (star a true)

/-- Number of capture groups of an expression. -/
def numGroups : Re → Nat
  | empty => 0
  | cls _ => 0
  | seq a b => max a.numGroups b.numGroups
  | alt a b => max a.numGroups b.numGroups
  | star a _ => a.numGroups
  | group i a => max i a.numGroups

/-- Repetition of `step`: the ways to match zero or more iterations at the
head of `s`, in the order a backtracking search tries them (greedy: more
iterations first; lazy: fewer first).  An iteration has to consume input, so
`s.length` iterations are all there can be and the counter never cuts a match
short when started there. -/
def starRun (step : List Char → Caps → List (List Char × Caps)) (greedy : Bool) :
    Nat → List Char → Caps → List (List Char × Caps)
  | 0, s, c => [(s, c)]
  | n + 1, s, c =>
    let more := (step s c).flatMap fun r =>
      if r.1.length < s.length then starRun step greedy n r.1 r.2 else []
    if greedy then more ++ [(s, c)] else (s, c) :: more

/-- All ways to match `r` at the head of the input, each with the remaining
input and the capture groups, in the priority order of a backtracking search. -/
def run : Re → List Char → Caps → List (List Char × Caps)
  | empty, s, c => [(s, c)]
  | cls p, s, c =>
    match s with
    | [] => []
    | x :: t => if p x then [(t, c)] else []
  | seq a b, s, c => (run a s c).flatMap fun r => run b r.1 r.2
  | alt a b, s, c => run a s c ++ run b s c
  | star a g, s, c => starRun (run a) g s.length s c
  | group i a, s, c =>
    (run a s c).map fun r => (r.1, (i, s.take (s.length - r.1.length)) :: r.2)

/-- Leftmost-first search: the earliest start position with a match, and there
the match a backtracking search finds first. -/
def find (r : Re) : List Char → Option Caps
  | [] => ((group 0 r).run [] []).head?.map (fun m => m.2)
  | x :: t =>
    match (group 0 r).run (x :: t) [] with
    | m :: _ => some m.2
    | [] => find r t

end Re

/-- Text of capture group `i`, empty when the group took no part. -/
def Caps.text (c : Caps) (i : Nat) : String :=
  match c.lookup i with
  | some t => String.mk t
  | none => ""

/-- The method `(*Regexp).MatchString`. -/
def MatchString (re : Re) (s : String) : Bool := (re.find s.data).isSome

/-- The method `(*Regexp).FindStringSubmatch`: `none` is the nil slice, and
otherwise the slice holds the whole match followed by the text of each group. -/
def FindStringSubmatch (re : Re) (s : String) : Option (List String) :=
  (re.find s.data).map fun c => (List.range (re.numGroups + 1)).map c.text

/-- Pattern `waiting for connections.*port(\s|":)(\d+)`. -/
def reReady : Re :=
  .seq (.str "waiting for connections")
    (.seq (.star (.cls isDot) true)
      (.seq (.str "port")
        (.seq (.group 1 (.alt (.cls isSpace) (.str "\":")))
          (.group 2 (.plus (.cls isDigit))))))

/-- Pattern `addr already in use`. -/
def reAlreadyInUse : Re := .str "addr already in use"

/-- Pattern `mongod already running`. -/
def reAlreadyRunning : Re := .str "mongod already running"

/-- Pattern `mongod permission denied`. -/
def rePermissionDenied : Re := .str "mongod permission denied"

/-- Pattern `data directory .*? not found`. -/
def reDataDirectoryNotFound : Re :=
  .seq (.str "data directory ") (.seq (.star (.cls isDot) false) (.str " not found"))

/-- Pattern `shutting down with code`. -/
def reShuttingDown : Re := .str "shutting down with code"

/-! ## The fragment of `strconv` used by the source -/

/-- Width of Go's `int` (`strconv.IntSize`) on the 64-bit platforms. -/
def intSize : Nat := 64

/-- Value of a run of decimal digits, `none` at the first other character. -/
def parseDigits : List Char → Nat → Option Nat
  | [], acc => some acc
  | c :: cs, acc =>
    if isDigit c then parseDigits cs (acc * 10 + (c.toNat - '0'.toNat)) else none

/-- The function `strconv.Atoi`: an optional sign and at least one decimal
digit, in the range of `int`; `none` stands for a non-nil error. -/
def Atoi (s : String) : Option Int :=
  let neg := s.data.head? == some '-'
  let digits := if s.data.head? == some '-' || s.data.head? == some '+' then s.data.tail else s.data
  if digits.isEmpty then none
  else
    match parseDigits digits 0 with
    | none => none
    | some n =>
      if neg then (if n ≤ 2 ^ (intSize - 1) then some (-(n : Int)) else none)
      else (if n < 2 ^ (intSize - 1) then some (n : Int) else none)

/-- The verb `%d` of `fmt.Sprintf` and `strconv.Itoa`. -/
def fmtInt (n : Int) : String :=
  if n < 0 then "-" ++ Nat.repr n.natAbs else Nat.repr n.toNat

/-- ASCII lower-casing, which is what `strings.ToLower` does on ASCII text. -/
def asciiToLower (s : String) : String := String.mk (s.data.map Char.toLower)

/-! ## The stdout classifier -/

/-- A send of the classifier goroutine: on `portChan` or on `errChan`. -/
inductive Msg where
  | port (p : Int)
  | err (e : String)
  deriving DecidableEq

/-- The chain of pattern tests that `stdoutHandler` runs on a line while
`haveSentMessage` is false: the message it sends, if a pattern matches. -/
def classify (ToLower : String → String) (line : String) : Option Msg :=
  let downcaseLine := ToLower line
  match FindStringSubmatch reReady downcaseLine with
  | some m =>
    match Atoi (m.getD 2 "") with
    | none => some (.err ("Could not parse port from mongod log line: " ++ downcaseLine))
    | some port => some (.port port)
  | none =>
    if MatchString reAlreadyInUse downcaseLine then
      some (.err "Mongod startup failed, address in use")
    else if MatchString reAlreadyRunning downcaseLine then
      some (.err "Mongod startup failed, already running")
    else if MatchString rePermissionDenied downcaseLine then
      some (.err "mongod startup failed, permission denied")
    else if MatchString reDataDirectoryNotFound downcaseLine then
      some (.err "Mongod startup failed, data directory not found")
    else if MatchString reShuttingDown downcaseLine then
      some (.err "Mongod startup failed, server shut down")
    else none

/-- State of the scanning loop: the flag `haveSentMessage` and the messages
sent so far, oldest first. -/
structure Scan where
  haveSentMessage : Bool
  sent : List Msg

/-- One iteration of `for scanner.Scan()`. -/
def scanLine (ToLower : String → String) (st : Scan) (line : String) : Scan :=
  if !st.haveSentMessage then
    match classify ToLower line with
    | some m => ⟨true, st.sent ++ [m]⟩
    | none => st
  else st

/-- The goroutine of `stdoutHandler`, run on the lines its scanner delivers
until the stream ends: every message it sends, in order. -/
def stdoutHandler (ToLower : String → String) (lines : List String) : List Msg :=
  let st := lines.foldl (scanLine ToLower) ⟨false, []⟩
  if !st.haveSentMessage then st.sent ++ [.err "Mongod exited before startup completed"]
  else st.sent

/-! ## The startup coordinator -/

/-- The fields of `Options` that `StartWithOptions` reads. -/
structure Options where
  Port : Int
  ShouldUseReplica : Bool
  deriving DecidableEq

/-- An `exec.Cmd`: program and arguments. -/
structure Cmd where
  path : String
  args : List String
  deriving DecidableEq

/-- The struct `Server`. -/
structure Server where
  cmd : Cmd
  watcherCmd : Cmd
  dbDir : String
  port : Int
  deriving DecidableEq

/-- What `StartWithOptions` and `Stop` do to the outside, in order. -/
inductive Action where
  | start (c : Cmd)
  | runMonitor (c : Cmd)
  | kill (c : Cmd)
  | removeAll (dir : String)
  | run (c : Cmd)
  | warn (msg : String)
  deriving DecidableEq

/-- Results of the steps `StartWithOptions` leaves to its collaborators and to
the operating system.  `fillDefaults` and `getOrDownloadBinPath` are methods of
`Options` and `RunMonitor` is a function of package `monitor`, all defined
outside `main.go`.  `stdout` holds the lines the scanner of the classifier
delivers before it stops; `timeoutFirst` says that `time.After` fires before a
message of the classifier is received, which is also what happens when the
server keeps its output open and prints nothing that classifies.  `Kill`,
`RemoveAll` and `Run` are the errors of `cmd.Process.Kill()`, `os.RemoveAll` and
`cmd2.Run()`, should the function call them. -/
structure World where
  fillDefaults : Options → Except String Options
  getOrDownloadBinPath : Except String String
  TempDir : Except String String
  Start : Option String
  RunMonitor : Except String Cmd
  stdout : List String
  timeoutFirst : Bool
  Kill : Option String
  RemoveAll : Option String
  Run : Option String

/-- The branch the `select` statement of `StartWithOptions` takes. -/
inductive Startup where
  | port (p : Int)
  | err (e : String)
  | timeout
  deriving DecidableEq

/-- The `select` over `startupPortCh`, `startupErrCh` and `time.After`: the
first message of the classifier, unless the timer fires first or no message
ever comes. -/
def select (msgs : List Msg) (timeoutFirst : Bool) : Startup :=
  if timeoutFirst then .timeout
  else
    match msgs with
    | [] => .timeout
    | .port p :: _ => .port p
    | .err e :: _ => .err e

/-- The warning logged when an error is not nil. -/
def warnIf (what : String) (e : Option String) : List Action :=
  match e with
  | some m => [.warn (what ++ m)]
  | none => []

/-- The two-step unwind written out three times in `StartWithOptions`:
`cmd.Process.Kill()`, then `os.RemoveAll(dbDir)`, each failure only logged. -/
def killAndRemove (w : World) (cmd : Cmd) (dbDir : String) : List Action :=
  [.kill cmd] ++ warnIf "error stopping mongo process: " w.Kill ++
  [.removeAll dbDir] ++ warnIf "error removing data directory: " w.RemoveAll

/-- The command line of the server: `exec.Command(binPath, ...)`, replaced by
the replica-set command line when `opts.ShouldUseReplica` is set. -/
def serverCmd (opts : Options) (binPath dbDir : String) : Cmd :=
  if opts.ShouldUseReplica then
    ⟨binPath, ["--storageEngine", "wiredTiger", "--dbpath", dbDir, "--port", fmtInt opts.Port,
      "--replSet", "rs0", "--bind_ip", "localhost"]⟩
  else
    ⟨binPath, ["--storageEngine", "ephemeralForTest", "--dbpath", dbDir, "--port",
      fmtInt opts.Port]⟩

/-- The function `StartWithOptions`: the pair it returns and what it did. -/
def StartWithOptions (ToLower : String → String) (w : World) (opts : Options) :
    (Option Server × Option String) × List Action :=
  match w.fillDefaults opts with
  | .error err => ((none, some err), [])
  | .ok opts =>
  match w.getOrDownloadBinPath with
  | .error err => ((none, some err), [])
  | .ok binPath =>
  match w.TempDir with
  | .error err => ((none, some err), [])
  | .ok dbDir =>
  let cmd := serverCmd opts binPath dbDir
  let msgs := stdoutHandler ToLower w.stdout
  match w.Start with
  | some err =>
    ((none, some err),
      [.start cmd, .removeAll dbDir] ++ warnIf "error removing data directory: " w.RemoveAll)
  | none =>
  match w.RunMonitor with
  | .error err =>
    ((none, some err), [.start cmd, .runMonitor cmd] ++ killAndRemove w cmd dbDir)
  | .ok watcherCmd =>
  -- the variable `err` of the function body, last assigned by `RunMonitor`
  let err : Option String := none
  match select msgs w.timeoutFirst with
  | .err e =>
    ((none, some e), [.start cmd, .runMonitor cmd] ++ killAndRemove w cmd dbDir)
  | .timeout =>
    ((none, some "timed out waiting for mongod to start"),
      [.start cmd, .runMonitor cmd] ++ killAndRemove w cmd dbDir)
  | .port port =>
  if opts.ShouldUseReplica then
    let mongoCommand :=
      "mongo --port " ++ fmtInt opts.Port ++ " --retryWrites --eval \"rs.initiate()\""
    let cmd2 : Cmd := ⟨"bash", ["-c", mongoCommand]⟩
    match w.Run with
    | some err2 =>
      ((none, err),
        [.start cmd, .runMonitor cmd, .run cmd2, .warn ("ERROR INITIAING REPLICA: " ++ err2)])
    | none =>
      ((some ⟨cmd, watcherCmd, dbDir, port⟩, none), [.start cmd, .runMonitor cmd, .run cmd2])
  else
    ((some ⟨cmd, watcherCmd, dbDir, port⟩, none), [.start cmd, .runMonitor cmd])

/-! ## The server handle -/

/-- The method `Server.Port`. -/
def Server.Port (s : Server) : Int := s.port

/-- The method `Server.URI`. -/
def Server.URI (s : Server) : String := "mongodb://localhost:" ++ fmtInt s.port

/-- Results of the three steps of `Stop`. -/
structure StopWorld where
  killServer : Option String
  killWatcher : Option String
  RemoveAll : Option String

/-- The method `Server.Stop`: what it did. -/
def Server.Stop (s : Server) (w : StopWorld) : List Action :=
  match w.killServer with
  | some err => [.kill s.cmd, .warn ("error stopping mongod process: " ++ err)]
  | none =>
  match w.killWatcher with
  | some err => [.kill s.cmd, .kill s.watcherCmd, .warn ("error stopping watcher process: " ++ err)]
  | none =>
  match w.RemoveAll with
  | some err =>
    [.kill s.cmd, .kill s.watcherCmd, .removeAll s.dbDir,
      .warn ("error removing data directory: " ++ err)]
  | none => [.kill s.cmd, .kill s.watcherCmd, .removeAll s.dbDir]

/-! ## Vocabulary of the statements -/

/-- The five failure patterns with the error text sent for each, in the order
of the `else if` chain of `stdoutHandler`. -/
def failureTable : List (Re × String) :=
  [(reAlreadyInUse, "Mongod startup failed, address in use"),
   (reAlreadyRunning, "Mongod startup failed, already running"),
   (rePermissionDenied, "mongod startup failed, permission denied"),
   (reDataDirectoryNotFound, "Mongod startup failed, data directory not found"),
   (reShuttingDown, "Mongod startup failed, server shut down")]

/-- The lower-cased line matches one of the five failure patterns. -/
def knownFailure (s : String) : Bool := failureTable.any fun e => MatchString e.1 s

/-- The line matches, once lower-cased, neither the ready pattern nor a
failure pattern. -/
def Unclassified (ToLower : String → String) (line : String) : Prop :=
  FindStringSubmatch reReady (ToLower line) = none ∧ knownFailure (ToLower line) = false

instance (ToLower : String → String) (line : String) : Decidable (Unclassified ToLower line) := by
  unfold Unclassified
  infer_instance

/-- A run in which the collaborators succeed up to the start of the watchdog:
the binary resolves, the directory is created, the server and the watchdog
start.  What the server prints, whether the timer fires first, and the results
of the kill, the removal and the replica command are left to choose. -/
def startedWorld (stdout : List String) (timeoutFirst : Bool)
    (kill removeAll run : Option String) : World :=
  ⟨fun o => .ok o, .ok "/cache/mongod", .ok "/tmp/db", none,
    .ok ⟨"/cache/monitor", ["4242", "4243"]⟩, stdout, timeoutFirst, kill, removeAll, run⟩

/-- A handle as `StartWithOptions` builds it for port 27018. -/
def sampleServer : Server :=
  ⟨serverCmd ⟨27018, false⟩ "/cache/mongod" "/tmp/db", ⟨"/cache/monitor", ["4242", "4243"]⟩,
    "/tmp/db", 27018⟩

/-! ## Lemmas on the classifier -/

theorem classify_ready (ToLower : String → String) (line : String) (m : List String)
    (h : FindStringSubmatch reReady (ToLower line) = some m) :
    classify ToLower line =
      match Atoi (m.getD 2 "") with
      | none => some (.err ("Could not parse port from mongod log line: " ++ ToLower line))
      | some port => some (.port port) := by
  simp only [classify, h]

theorem classify_not_ready (ToLower : String → String) (line : String)
    (h : FindStringSubmatch reReady (ToLower line) = none) :
    classify ToLower line =
      (failureTable.find? fun e => MatchString e.1 (ToLower line)).map fun e => Msg.err e.2 := by
  simp only [classify, h, failureTable, List.find?]
  repeat' split
  all_goals simp_all

theorem classify_unclassified (ToLower : String → String) (line : String)
    (h : Unclassified ToLower line) : classify ToLower line = none := by
  obtain ⟨h1, h2⟩ := h
  rw [classify_not_ready ToLower line h1]
  have h3 : (failureTable.find? fun e => MatchString e.1 (ToLower line)) = none := by
    rw [List.find?_eq_none]
    intro e he
    simp only [knownFailure, List.any_eq_false] at h2
    exact h2 e he
  rw [h3]
  rfl

theorem foldl_scanLine_sent (ToLower : String → String) (lines : List String) (st : Scan)
    (h : st.haveSentMessage = true) : lines.foldl (scanLine ToLower) st = st := by
  induction lines with
  | nil => rfl
  | cons l ls ih =>
    have hs : scanLine ToLower st l = st := by simp [scanLine, h]
    rw [List.foldl_cons, hs, ih]

/-- The classifier sends the message of the first line that a pattern
classifies and, when there is none, the exit error. -/
theorem stdoutHandler_eq (ToLower : String → String) (lines : List String) :
    stdoutHandler ToLower lines =
      [(lines.findSome? (classify ToLower)).getD
        (Msg.err "Mongod exited before startup completed")] := by
  induction lines with
  | nil => rfl
  | cons l ls ih =>
    cases hc : classify ToLower l with
    | none =>
      have hs : scanLine ToLower ⟨false, []⟩ l = ⟨false, []⟩ := by simp [scanLine, hc]
      have : stdoutHandler ToLower (l :: ls) = stdoutHandler ToLower ls := by
        simp only [stdoutHandler, List.foldl_cons, hs]
      rw [this, ih, List.findSome?_cons, hc]
    | some m =>
      have hs : scanLine ToLower ⟨false, []⟩ l = ⟨true, [m]⟩ := by simp [scanLine, hc]
      have hf := foldl_scanLine_sent ToLower ls ⟨true, [m]⟩ rfl
      simp only [stdoutHandler, List.foldl_cons, hs, hf, List.findSome?_cons, hc]
      rfl

theorem findSome_classify_append (ToLower : String → String) (pre : List String)
    (hpre : ∀ x ∈ pre, Unclassified ToLower x) (rest : List String) :
    (pre ++ rest).findSome? (classify ToLower) = rest.findSome? (classify ToLower) := by
  induction pre with
  | nil => rfl
  | cons x xs ih =>
    have hx := classify_unclassified ToLower x (hpre x (List.mem_cons_self x xs))
    rw [List.cons_append, List.findSome?_cons, hx]
    exact ih fun y hy => hpre y (List.mem_cons_of_mem x hy)

/-- The message sent is decided by the first line that is not unclassified. -/
theorem stdoutHandler_first (ToLower : String → String) (pre : List String)
    (hpre : ∀ x ∈ pre, Unclassified ToLower x) (l : String) (post : List String) (m : Msg)
    (hl : classify ToLower l = some m) :
    stdoutHandler ToLower (pre ++ l :: post) = [m] := by
  rw [stdoutHandler_eq, findSome_classify_append ToLower pre hpre, List.findSome?_cons, hl]
  rfl

/-! ## Lemmas on the ready pattern and on `Atoi` -/

theorem run_cls_mem (p : Char → Bool) (s : List Char) (c : Caps) (r : List Char × Caps)
    (h : r ∈ (Re.cls p).run s c) : ∃ x, s = x :: r.1 ∧ p x = true ∧ r.2 = c := by
  cases s with
  | nil => simp [Re.run] at h
  | cons x t =>
    by_cases hp : p x = true
    · simp only [Re.run, hp, if_true, List.mem_singleton] at h
      subst h
      exact ⟨x, rfl, hp, rfl⟩
    · simp [Re.run, hp] at h

theorem starRun_cls_mem (p : Char → Bool) (g : Bool) (n : Nat) :
    ∀ (s : List Char) (c : Caps) (r : List Char × Caps),
      r ∈ Re.starRun ((Re.cls p).run) g n s c →
        ∃ ds, s = ds ++ r.1 ∧ (∀ x ∈ ds, p x = true) ∧ r.2 = c := by
  induction n with
  | zero =>
    intro s c r h
    simp only [Re.starRun, List.mem_singleton] at h
    subst h
    exact ⟨[], rfl, by simp, rfl⟩
  | succ n ih =>
    intro s c r h
    have hcases : r = (s, c) ∨ r ∈ ((Re.cls p).run s c).flatMap (fun r1 =>
        if r1.1.length < s.length then Re.starRun ((Re.cls p).run) g n r1.1 r1.2 else []) := by
      cases g
      · simp only [Re.starRun, Bool.false_eq_true, if_false, List.mem_cons] at h
        exact h
      · simp only [Re.starRun, if_true, List.mem_append, List.mem_singleton] at h
        exact h.symm
    rcases hcases with h | h
    · subst h
      exact ⟨[], rfl, by simp, rfl⟩
    · rw [List.mem_flatMap] at h
      obtain ⟨r1, hr1, hr⟩ := h
      obtain ⟨x, hs, hpx, hc⟩ := run_cls_mem p s c r1 hr1
      split at hr
      · obtain ⟨ds, hds, hall, hc2⟩ := ih r1.1 r1.2 r hr
        refine ⟨x :: ds, ?_, ?_, ?_⟩
        · rw [hs, List.cons_append, ← hds]
        · intro y hy
          rcases List.mem_cons.mp hy with hy | hy
          · rw [hy]; exact hpx
          · exact hall y hy
        · rw [hc2, hc]
      · simp at hr

theorem run_plus_cls_mem (p : Char → Bool) (s : List Char) (c : Caps) (r : List Char × Caps)
    (h : r ∈ (Re.plus (Re.cls p)).run s c) :
    ∃ ds, s = ds ++ r.1 ∧ ds ≠ [] ∧ (∀ x ∈ ds, p x = true) ∧ r.2 = c := by
  simp only [Re.plus, Re.run, List.mem_flatMap] at h
  obtain ⟨r1, hr1, hr⟩ := h
  obtain ⟨x, hs, hpx, hc⟩ := run_cls_mem p s c r1 (by simpa [Re.run] using hr1)
  obtain ⟨ds, hds, hall, hc2⟩ := starRun_cls_mem p true _ r1.1 r1.2 r hr
  refine ⟨x :: ds, ?_, by simp, ?_, ?_⟩
  · rw [hs, List.cons_append, ← hds]
  · intro y hy
    rcases List.mem_cons.mp hy with hy | hy
    · rw [hy]; exact hpx
    · exact hall y hy
  · rw [hc2, hc]

theorem run_seq_mem (a b : Re) (s : List Char) (c : Caps) (r : List Char × Caps) :
    r ∈ (Re.seq a b).run s c ↔ ∃ r1, r1 ∈ a.run s c ∧ r ∈ b.run r1.1 r1.2 := by
  simp only [Re.run, List.mem_flatMap]

theorem run_group_mem (i : Nat) (a : Re) (s : List Char) (c : Caps) (r : List Char × Caps) :
    r ∈ (Re.group i a).run s c ↔
      ∃ r1, r1 ∈ a.run s c ∧ r = (r1.1, (i, s.take (s.length - r1.1.length)) :: r1.2) := by
  simp only [Re.run, List.mem_map]
  constructor
  · rintro ⟨r1, h1, h2⟩
    exact ⟨r1, h1, h2.symm⟩
  · rintro ⟨r1, h1, h2⟩
    exact ⟨r1, h1, h2.symm⟩

theorem find_some_mem (r : Re) (s : List Char) (caps : Caps) (h : r.find s = some caps) :
    ∃ s' rest, (rest, caps) ∈ (Re.group 0 r).run s' [] := by
  induction s with
  | nil =>
    simp only [Re.find, Option.map_eq_some'] at h
    obtain ⟨m, hm, hcaps⟩ := h
    refine ⟨[], m.1, ?_⟩
    have := List.mem_of_mem_head? hm
    rw [← hcaps]
    exact this
  | cons x t ih =>
    unfold Re.find at h
    split at h
    · rename_i m ms hrun
      simp only [Option.some.injEq] at h
      refine ⟨x :: t, m.1, ?_⟩
      rw [hrun, ← h]
      exact List.mem_cons_self m ms
    · exact ih h

/-- Group 2 of a match of the ready pattern is a non-empty run of digits. -/
theorem reReady_group2 (s : String) (m : List String)
    (h : FindStringSubmatch reReady s = some m) :
    ∃ ds : List Char, m.getD 2 "" = String.mk ds ∧ ds ≠ [] ∧ ∀ x ∈ ds, isDigit x = true := by
  simp only [FindStringSubmatch, Option.map_eq_some'] at h
  obtain ⟨caps, hfind, hm⟩ := h
  obtain ⟨s', rest, hmem⟩ := find_some_mem reReady s.data caps hfind
  have hn : reReady.numGroups + 1 = 3 := by decide
  rw [hn] at hm
  have hm2 : m.getD 2 "" = caps.text 2 := by
    rw [← hm]
    rfl
  rw [run_group_mem] at hmem
  obtain ⟨r0, hr0, hcaps⟩ := hmem
  unfold reReady at hr0
  rw [run_seq_mem] at hr0
  obtain ⟨r1, -, hr0⟩ := hr0
  rw [run_seq_mem] at hr0
  obtain ⟨r2, -, hr0⟩ := hr0
  rw [run_seq_mem] at hr0
  obtain ⟨r3, -, hr0⟩ := hr0
  rw [run_seq_mem] at hr0
  obtain ⟨r4, -, hr0⟩ := hr0
  rw [run_group_mem] at hr0
  obtain ⟨r5, hr5, hr⟩ := hr0
  obtain ⟨ds, hds, hne, hall, -⟩ := run_plus_cls_mem isDigit r4.1 r4.2 r5 hr5
  refine ⟨ds, ?_, hne, hall⟩
  rw [hm2]
  have hcaps2 : caps = (0, s'.take (s'.length - r0.1.length)) :: r0.2 := by
    simpa using congrArg Prod.snd hcaps
  have hr02 : r0.2 = (2, r4.1.take (r4.1.length - r5.1.length)) :: r5.2 := by
    simpa using congrArg Prod.snd hr
  have htake : r4.1.take (r4.1.length - r5.1.length) = ds := by
    rw [hds]
    simp
  simp [Caps.text, hcaps2, hr02, htake, List.lookup]

theorem isDigit_not_sign (c : Char) (h : isDigit c = true) : c ≠ '-' ∧ c ≠ '+' := by
  constructor <;> intro hc <;> subst hc <;> revert h <;> decide

/-- The function `Atoi` gives no negative number on a run of digits. -/
theorem Atoi_digits_nonneg (ds : List Char) (hne : ds ≠ [])
    (hall : ∀ x ∈ ds, isDigit x = true) (p : Int) (h : Atoi (String.mk ds) = some p) :
    0 ≤ p := by
  cases ds with
  | nil => exact absurd rfl hne
  | cons x t =>
    obtain ⟨h1, h2⟩ := isDigit_not_sign x (hall x (List.mem_cons_self x t))
    simp only [Atoi, List.head?_cons] at h
    have e1 : (some x == some '-') = false := by simpa using h1
    have e2 : (some x == some '+') = false := by simpa using h2
    simp only [e1, e2, Bool.or_self, Bool.false_eq_true, if_false] at h
    split at h
    · simp at h
    · split at h
      · simp at h
      · split at h
        · simp only [Option.some.injEq] at h
          rw [← h]
          exact Int.natCast_nonneg _
        · simp at h

theorem classify_port (ToLower : String → String) (line : String) (p : Int)
    (h : classify ToLower line = some (Msg.port p)) :
    ∃ m, FindStringSubmatch reReady (ToLower line) = some m ∧ Atoi (m.getD 2 "") = some p := by
  cases hm : FindStringSubmatch reReady (ToLower line) with
  | none =>
    rw [classify_not_ready ToLower line hm] at h
    simp at h
  | some m =>
    rw [classify_ready ToLower line m hm] at h
    refine ⟨m, rfl, ?_⟩
    cases ha : Atoi (m.getD 2 "") with
    | none =>
      rw [ha] at h
      simp at h
    | some q =>
      rw [ha] at h
      simp only [Option.some.injEq, Msg.port.injEq] at h
      rw [h]

theorem stdoutHandler_port (ToLower : String → String) (lines : List String) (p : Int)
    (rest : List Msg) (h : stdoutHandler ToLower lines = Msg.port p :: rest) :
    ∃ l ∈ lines, classify ToLower l = some (Msg.port p) := by
  rw [stdoutHandler_eq] at h
  cases hf : lines.findSome? (classify ToLower) with
  | none => simp [hf] at h
  | some m =>
    simp only [hf, Option.getD_some, List.cons.injEq] at h
    obtain ⟨l, hl, hc⟩ := List.exists_of_findSome?_eq_some hf
    exact ⟨l, hl, by rw [hc, h.1]⟩

/-- A port that the `select` receives was parsed from digits: it is not negative. -/
theorem select_port_nonneg (ToLower : String → String) (lines : List String) (tf : Bool)
    (p : Int) (h : select (stdoutHandler ToLower lines) tf = Startup.port p) : 0 ≤ p := by
  unfold select at h
  split at h
  · simp at h
  · split at h
    · simp at h
    · rename_i q rest hmsgs
      simp only [Startup.port.injEq] at h
      subst h
      obtain ⟨l, -, hc⟩ := stdoutHandler_port ToLower lines q rest hmsgs
      obtain ⟨m, hm, ha⟩ := classify_port ToLower l q hc
      obtain ⟨ds, hds, hne, hall⟩ := reReady_group2 (ToLower l) m hm
      rw [hds] at ha
      exact Atoi_digits_nonneg ds hne hall q ha
    · simp at h

theorem unclassified_of_classify_none (ToLower : String → String) (line : String)
    (h : classify ToLower line = none) : Unclassified ToLower line := by
  cases hm : FindStringSubmatch reReady (ToLower line) with
  | some m =>
    rw [classify_ready ToLower line m hm] at h
    split at h <;> simp at h
  | none =>
    refine ⟨hm, ?_⟩
    rw [classify_not_ready ToLower line hm] at h
    cases hf : failureTable.find? (fun e => MatchString e.1 (ToLower line)) with
    | some e =>
      rw [hf] at h
      simp at h
    | none =>
      rw [List.find?_eq_none] at hf
      simp only [knownFailure, List.any_eq_false]
      exact hf

/-- A port that the `select` receives is the number parsed from the first line
of the output that a pattern classifies, a match of the ready pattern, and the
timer has not fired first. -/
theorem select_port_parsed (ToLower : String → String) (lines : List String) (tf : Bool)
    (p : Int) (h : select (stdoutHandler ToLower lines) tf = Startup.port p) :
    tf = false ∧ ∃ pre l post m, lines = pre ++ l :: post ∧
      (∀ x ∈ pre, Unclassified ToLower x) ∧
      FindStringSubmatch reReady (ToLower l) = some m ∧ Atoi (m.getD 2 "") = some p := by
  have htf : tf = false := by
    cases tf with
    | false => rfl
    | true => simp [select] at h
  refine ⟨htf, ?_⟩
  subst htf
  rw [stdoutHandler_eq] at h
  cases hf : lines.findSome? (classify ToLower) with
  | none =>
    rw [hf] at h
    simp [select] at h
  | some msg =>
    rw [hf] at h
    cases msg with
    | err e => simp [select] at h
    | port q =>
      have hq : q = p := by simpa [select] using h
      subst hq
      obtain ⟨pre, l, post, hsplit, hc, hpre⟩ := List.findSome?_eq_some_iff.mp hf
      obtain ⟨m, hm, ha⟩ := classify_port ToLower l q hc
      exact ⟨pre, l, post, m, hsplit, fun x hx => unclassified_of_classify_none ToLower x (hpre x hx),
        hm, ha⟩

/-! ## The classifier: one message, and which one -/

/-- C2: whatever lines the scanner delivers before the stream ends, and however
many of them match a pattern, the classifier performs exactly one send over
`portChan` and `errChan` taken together. -/
theorem stdoutHandler_sends_exactly_one (ToLower : String → String) (lines : List String) :
    (stdoutHandler ToLower lines).length = 1 := by
  rw [stdoutHandler_eq]
  rfl

/-- C3, as stated, fails: the second line matches the ready pattern with the
digits `27018`, yet the classifier, which saw `addr already in use` first,
sends the address-in-use error and no port. -/
theorem ready_line_after_failure_line :
    (∃ m, FindStringSubmatch reReady (asciiToLower "Waiting for connections on port 27018")
        = some m ∧ Atoi (m.getD 2 "") = some 27018) ∧
    stdoutHandler asciiToLower ["addr already in use", "Waiting for connections on port 27018"]
      = [Msg.err "Mongod startup failed, address in use"] :=
  ⟨⟨["waiting for connections on port 27018", " ", "27018"], by decide, by decide⟩, by decide⟩

/-- C3, amended: when the first line that matches the ready pattern or a
failure pattern (after lower-casing) is a match of the ready pattern whose
digits parse as `p`, the classifier sends exactly one message, it is `p` on the
port channel, and the lines after it change nothing. -/
theorem ready_first_classified (ToLower : String → String) (pre : List String) (l : String)
    (post : List String) (m : List String) (p : Int)
    (hpre : ∀ x ∈ pre, Unclassified ToLower x)
    (hm : FindStringSubmatch reReady (ToLower l) = some m)
    (hp : Atoi (m.getD 2 "") = some p) :
    stdoutHandler ToLower (pre ++ l :: post) = [Msg.port p] := by
  apply stdoutHandler_first ToLower pre hpre l post
  rw [classify_ready ToLower l m hm, hp]

/-- Instance of `ready_first_classified`: a banner line, then the ready line
for port 27018, then lines that would classify on their own. -/
theorem ready_first_classified_witness :
    (∀ x ∈ ["MongoDB starting : pid=4243"], Unclassified asciiToLower x) ∧
    FindStringSubmatch reReady (asciiToLower "NETWORK  Waiting for connections on port 27018")
      = some ["waiting for connections on port 27018", " ", "27018"] ∧
    Atoi ((["waiting for connections on port 27018", " ", "27018"] : List String).getD 2 "")
      = some 27018 ∧
    stdoutHandler asciiToLower
      (["MongoDB starting : pid=4243"] ++
        "NETWORK  Waiting for connections on port 27018" ::
          ["addr already in use", "waiting for connections on port 1"])
      = [Msg.port 27018] :=
  ⟨by decide, by decide, by decide,
    ready_first_classified asciiToLower ["MongoDB starting : pid=4243"]
      "NETWORK  Waiting for connections on port 27018"
      ["addr already in use", "waiting for connections on port 1"]
      ["waiting for connections on port 27018", " ", "27018"] 27018
      (by decide) (by decide) (by decide)⟩

/-- C4: when a line matching a failure pattern comes before every line that
matches the ready pattern, the classifier sends exactly one message, on the
error channel, and its text is the one paired with the first pattern of the
chain (address in use, already running, permission denied, data directory not
found, server shut down) that the first such line matches. -/
theorem failure_first_classified (ToLower : String → String) (pre : List String) (l : String)
    (post : List String)
    (hpre : ∀ x ∈ pre, Unclassified ToLower x)
    (hr : FindStringSubmatch reReady (ToLower l) = none)
    (hf : knownFailure (ToLower l) = true) :
    ∃ e, failureTable.find? (fun e => MatchString e.1 (ToLower l)) = some e ∧
      MatchString e.1 (ToLower l) = true ∧
      stdoutHandler ToLower (pre ++ l :: post) = [Msg.err e.2] := by
  cases hfind : failureTable.find? (fun e => MatchString e.1 (ToLower l)) with
  | none =>
    rw [List.find?_eq_none] at hfind
    simp only [knownFailure, List.any_eq_true] at hf
    obtain ⟨e, he, hmatch⟩ := hf
    exact absurd hmatch (hfind e he)
  | some e =>
    refine ⟨e, rfl, ?_, ?_⟩
    · have hsome := List.find?_some hfind
      exact hsome
    · apply stdoutHandler_first ToLower pre hpre l post
      rw [classify_not_ready ToLower l hr, hfind]
      rfl

/-- Instance of `failure_first_classified`: the first line holds
`addr already in use`, a ready line follows, and the error sent has a text
that contains `address in use`. -/
theorem failure_first_classified_witness :
    (∀ x ∈ ([] : List String), Unclassified asciiToLower x) ∧
    FindStringSubmatch reReady (asciiToLower "E  Failed to set up listener: Addr already in use")
      = none ∧
    knownFailure (asciiToLower "E  Failed to set up listener: Addr already in use") = true ∧
    (∃ e, failureTable.find?
        (fun e => MatchString e.1
          (asciiToLower "E  Failed to set up listener: Addr already in use")) = some e ∧
      MatchString e.1 (asciiToLower "E  Failed to set up listener: Addr already in use") = true ∧
      stdoutHandler asciiToLower
        ([] ++ "E  Failed to set up listener: Addr already in use" ::
          ["waiting for connections on port 27018"]) = [Msg.err e.2]) ∧
    stdoutHandler asciiToLower
      ["E  Failed to set up listener: Addr already in use",
        "waiting for connections on port 27018"]
      = [Msg.err "Mongod startup failed, address in use"] ∧
    "address in use".data <:+: "Mongod startup failed, address in use".data :=
  ⟨by decide, by decide, by decide,
    failure_first_classified asciiToLower []
      "E  Failed to set up listener: Addr already in use"
      ["waiting for connections on port 27018"] (by decide) (by decide) (by decide),
    by decide, by decide⟩

/-- C8: when the first line that a pattern classifies matches the ready pattern
but `Atoi` rejects its digits, the classifier sends, as its one message, the
could-not-parse error (the text `Could not parse port from mongod log line: `
followed by the lower-cased line) on the error channel, and sends no port. -/
theorem unparsable_port_first_classified (ToLower : String → String) (pre : List String)
    (l : String) (post : List String) (m : List String)
    (hpre : ∀ x ∈ pre, Unclassified ToLower x)
    (hm : FindStringSubmatch reReady (ToLower l) = some m)
    (hp : Atoi (m.getD 2 "") = none) :
    stdoutHandler ToLower (pre ++ l :: post)
      = [Msg.err ("Could not parse port from mongod log line: " ++ ToLower l)] ∧
    ∀ p, Msg.port p ∉ stdoutHandler ToLower (pre ++ l :: post) := by
  have h : stdoutHandler ToLower (pre ++ l :: post)
      = [Msg.err ("Could not parse port from mongod log line: " ++ ToLower l)] := by
    apply stdoutHandler_first ToLower pre hpre l post
    rw [classify_ready ToLower l m hm, hp]
  refine ⟨h, ?_⟩
  intro p hmem
  rw [h] at hmem
  simp at hmem

/-- Instance of `unparsable_port_first_classified`: twenty nines do not fit
an `int`. -/
theorem unparsable_port_first_classified_witness :
    (∀ x ∈ ["MongoDB starting"], Unclassified asciiToLower x) ∧
    FindStringSubmatch reReady (asciiToLower "Waiting for connections on port 99999999999999999999")
      = some ["waiting for connections on port 99999999999999999999", " ",
          "99999999999999999999"] ∧
    Atoi ((["waiting for connections on port 99999999999999999999", " ",
          "99999999999999999999"] : List String).getD 2 "") = none ∧
    (stdoutHandler asciiToLower
        (["MongoDB starting"] ++ "Waiting for connections on port 99999999999999999999" ::
          ["waiting for connections on port 27018"])
      = [Msg.err ("Could not parse port from mongod log line: " ++
          asciiToLower "Waiting for connections on port 99999999999999999999")] ∧
    ∀ p, Msg.port p ∉ stdoutHandler asciiToLower
        (["MongoDB starting"] ++ "Waiting for connections on port 99999999999999999999" ::
          ["waiting for connections on port 27018"])) :=
  ⟨by decide, by decide, by decide,
    unparsable_port_first_classified asciiToLower ["MongoDB starting"]
      "Waiting for connections on port 99999999999999999999"
      ["waiting for connections on port 27018"]
      ["waiting for connections on port 99999999999999999999", " ", "99999999999999999999"]
      (by decide) (by decide) (by decide)⟩

/-- C9: when no line matches the ready pattern or a failure pattern (the empty
stream included), the classifier sends exactly one message when the stream
ends: the exited-before-startup error (text
`Mongod exited before startup completed`) on the error channel. -/
theorem unclassified_stream_exit_error (ToLower : String → String) (lines : List String)
    (h : ∀ x ∈ lines, Unclassified ToLower x) :
    stdoutHandler ToLower lines = [Msg.err "Mongod exited before startup completed"] := by
  have := findSome_classify_append ToLower lines h []
  rw [List.append_nil] at this
  rw [stdoutHandler_eq, this]
  rfl

/-- Instance of `unclassified_stream_exit_error`: two lines that no pattern
matches. -/
theorem unclassified_stream_exit_error_witness :
    (∀ x ∈ ["MongoDB starting", "db version v4.0.5"], Unclassified asciiToLower x) ∧
    stdoutHandler asciiToLower ["MongoDB starting", "db version v4.0.5"]
      = [Msg.err "Mongod exited before startup completed"] :=
  ⟨by decide, unclassified_stream_exit_error asciiToLower
    ["MongoDB starting", "db version v4.0.5"] (by decide)⟩

/-! ## The startup coordinator and the handle -/

/-- C1, as stated, fails at two runs.  In the first every step succeeds and
the server logs port 0: a handle and a nil error are returned, and the port of
the handle is not positive.  In the second, in replica mode, the server reports
ready and the replica command fails: neither a handle nor an error is
returned. -/
theorem start_result_counterexamples :
    (StartWithOptions asciiToLower
        (startedWorld ["waiting for connections on port 0"] false none none none)
        ⟨0, false⟩).1
      = (some ⟨serverCmd ⟨0, false⟩ "/cache/mongod" "/tmp/db",
          ⟨"/cache/monitor", ["4242", "4243"]⟩, "/tmp/db", 0⟩, none) ∧
    (StartWithOptions asciiToLower
        (startedWorld ["waiting for connections on port 27018"] false none none
          (some "exit status 1"))
        ⟨27018, true⟩).1
      = (none, none) := by
  constructor <;> decide

/-- C1, amended: in every run other than those of replica mode with a failing
replica command, `StartWithOptions` returns either a handle together with a nil
error, or no handle together with an error that is not nil.  The port of the
handle is the one the `select` received from the classifier: the timer has not
fired first, and the port is the integer that `Atoi` parsed from the digits of
the first line of the output that matches a pattern, a match of the ready
pattern.  It is not negative (and it is 0 when that line reports port 0). -/
theorem start_handle_or_error (ToLower : String → String) (w : World) (opts : Options)
    (hrun : ∀ o, w.fillDefaults opts = .ok o → o.ShouldUseReplica = true → w.Run = none) :
    (∃ s, (StartWithOptions ToLower w opts).1 = (some s, none) ∧ 0 ≤ s.Port ∧
      select (stdoutHandler ToLower w.stdout) w.timeoutFirst = Startup.port s.Port ∧
      w.timeoutFirst = false ∧
      ∃ pre l post m, w.stdout = pre ++ l :: post ∧
        (∀ x ∈ pre, Unclassified ToLower x) ∧
        FindStringSubmatch reReady (ToLower l) = some m ∧
        Atoi (m.getD 2 "") = some s.Port) ∨
    (∃ e, (StartWithOptions ToLower w opts).1 = (none, some e)) := by
  unfold StartWithOptions
  split
  · exact Or.inr ⟨_, rfl⟩
  rename_i o hfill
  split
  · exact Or.inr ⟨_, rfl⟩
  split
  · exact Or.inr ⟨_, rfl⟩
  dsimp only
  split
  · exact Or.inr ⟨_, rfl⟩
  split
  · exact Or.inr ⟨_, rfl⟩
  split
  · exact Or.inr ⟨_, rfl⟩
  · exact Or.inr ⟨_, rfl⟩
  rename_i port hsel
  have hport := select_port_nonneg ToLower w.stdout w.timeoutFirst port hsel
  obtain ⟨htf, hparsed⟩ := select_port_parsed ToLower w.stdout w.timeoutFirst port hsel
  split
  · rename_i hrep
    split
    · rename_i err2 hfail
      rw [hrun o hfill hrep] at hfail
      simp at hfail
    · exact Or.inl ⟨_, rfl, hport, hsel, htf, hparsed⟩
  · exact Or.inl ⟨_, rfl, hport, hsel, htf, hparsed⟩

/-- Instance of `start_handle_or_error`: a start in replica mode on port 27018
in which the replica command succeeds. -/
theorem start_handle_or_error_witness :
    (∀ o, (startedWorld ["waiting for connections on port 27018"] false none none none).fillDefaults
        ⟨27018, true⟩ = .ok o → o.ShouldUseReplica = true →
      (startedWorld ["waiting for connections on port 27018"] false none none none).Run = none) ∧
    ((∃ s, (StartWithOptions asciiToLower
          (startedWorld ["waiting for connections on port 27018"] false none none none)
          ⟨27018, true⟩).1 = (some s, none) ∧ 0 ≤ s.Port ∧
        select (stdoutHandler asciiToLower
            (startedWorld ["waiting for connections on port 27018"] false none none none).stdout)
          (startedWorld ["waiting for connections on port 27018"] false none none
            none).timeoutFirst = Startup.port s.Port ∧
        (startedWorld ["waiting for connections on port 27018"] false none none
          none).timeoutFirst = false ∧
        ∃ pre l post m,
          (startedWorld ["waiting for connections on port 27018"] false none none none).stdout
            = pre ++ l :: post ∧
          (∀ x ∈ pre, Unclassified asciiToLower x) ∧
          FindStringSubmatch reReady (asciiToLower l) = some m ∧
          Atoi (m.getD 2 "") = some s.Port) ∨
      (∃ e, (StartWithOptions asciiToLower
          (startedWorld ["waiting for connections on port 27018"] false none none none)
          ⟨27018, true⟩).1 = (none, some e))) ∧
    (StartWithOptions asciiToLower
        (startedWorld ["waiting for connections on port 27018"] false none none none)
        ⟨27018, true⟩).1
      = (some ⟨serverCmd ⟨27018, true⟩ "/cache/mongod" "/tmp/db",
          ⟨"/cache/monitor", ["4242", "4243"]⟩, "/tmp/db", 27018⟩, none) :=
  ⟨fun _ _ _ => rfl, start_handle_or_error asciiToLower
    (startedWorld ["waiting for connections on port 27018"] false none none none)
    ⟨27018, true⟩ (fun _ _ _ => rfl), by decide⟩

/-- C5: when the server and the watchdog have started and the `select` takes
the error branch or the timeout branch, `StartWithOptions` attempts the kill of
the server process and then the removal of the storage directory, whatever the
result of either attempt (a failure only adds a warning), and returns no handle
together with the startup error itself: the error of the classifier, or
`timed out waiting for mongod to start`. -/
theorem startup_failure_unwind (ToLower : String → String) (w : World) (opts o : Options)
    (binPath dbDir : String) (watcherCmd : Cmd) (e : String)
    (h1 : w.fillDefaults opts = .ok o)
    (h2 : w.getOrDownloadBinPath = .ok binPath)
    (h3 : w.TempDir = .ok dbDir)
    (h4 : w.Start = none)
    (h5 : w.RunMonitor = .ok watcherCmd)
    (h6 : select (stdoutHandler ToLower w.stdout) w.timeoutFirst = Startup.err e ∨
      (select (stdoutHandler ToLower w.stdout) w.timeoutFirst = Startup.timeout ∧
        e = "timed out waiting for mongod to start")) :
    StartWithOptions ToLower w opts =
      ((none, some e),
        [Action.start (serverCmd o binPath dbDir), Action.runMonitor (serverCmd o binPath dbDir),
          Action.kill (serverCmd o binPath dbDir)] ++
        warnIf "error stopping mongo process: " w.Kill ++
        [Action.removeAll dbDir] ++
        warnIf "error removing data directory: " w.RemoveAll) := by
  unfold StartWithOptions
  simp only [h1, h2, h3, h4, h5]
  rcases h6 with h6 | ⟨h6, he⟩
  · simp only [h6, killAndRemove, List.append_assoc, List.cons_append, List.nil_append]
  · simp only [h6, he, killAndRemove, List.append_assoc, List.cons_append, List.nil_append]

/-- Instance of `startup_failure_unwind`: the server reports an address in
use, the kill fails because the process is gone, the removal fails too. -/
theorem startup_failure_unwind_witness :
    select (stdoutHandler asciiToLower ["addr already in use"]) false
      = Startup.err "Mongod startup failed, address in use" ∧
    StartWithOptions asciiToLower
        (startedWorld ["addr already in use"] false (some "os: process already finished")
          (some "permission denied") none)
        ⟨27018, false⟩ =
      ((none, some "Mongod startup failed, address in use"),
        [Action.start (serverCmd ⟨27018, false⟩ "/cache/mongod" "/tmp/db"),
          Action.runMonitor (serverCmd ⟨27018, false⟩ "/cache/mongod" "/tmp/db"),
          Action.kill (serverCmd ⟨27018, false⟩ "/cache/mongod" "/tmp/db")] ++
        warnIf "error stopping mongo process: " (some "os: process already finished") ++
        [Action.removeAll "/tmp/db"] ++
        warnIf "error removing data directory: " (some "permission denied")) :=
  ⟨by decide,
    startup_failure_unwind asciiToLower
      (startedWorld ["addr already in use"] false (some "os: process already finished")
        (some "permission denied") none)
      ⟨27018, false⟩ ⟨27018, false⟩ "/cache/mongod" "/tmp/db"
      ⟨"/cache/monitor", ["4242", "4243"]⟩ "Mongod startup failed, address in use"
      rfl rfl rfl rfl rfl (Or.inl (by decide))⟩

/-- C6 fails on the code: when `Kill` on the server process returns an error
(the process has exited and has been reaped, so that the signal finds no
process), `Stop` logs the failure and returns; the kill of the watchdog and the
removal of the storage directory are not attempted, whatever their results
would be.  Likewise, when the server is killed and `Kill` on the watchdog
returns an error, `Stop` returns before the removal of the storage
directory. -/
theorem Stop_returns_after_failed_kill (s : Server) (e : String) (k r : Option String) :
    s.Stop ⟨some e, k, r⟩
      = [Action.kill s.cmd, Action.warn ("error stopping mongod process: " ++ e)] ∧
    s.Stop ⟨none, some e, r⟩
      = [Action.kill s.cmd, Action.kill s.watcherCmd,
          Action.warn ("error stopping watcher process: " ++ e)] :=
  ⟨rfl, rfl⟩

/-- C7 fails on the code: in replica mode, with the server ready and the
replica command failing, `StartWithOptions` runs the command, logs the failure
and returns: no kill, no removal (and a nil error next to the nil handle). -/
theorem replica_failure_no_cleanup :
    StartWithOptions asciiToLower
        (startedWorld ["waiting for connections on port 27018"] false none none
          (some "exit status 1"))
        ⟨27018, true⟩ =
      ((none, none),
        [Action.start (serverCmd ⟨27018, true⟩ "/cache/mongod" "/tmp/db"),
          Action.runMonitor (serverCmd ⟨27018, true⟩ "/cache/mongod" "/tmp/db"),
          Action.run ⟨"bash", ["-c", "mongo --port 27018 --retryWrites --eval \"rs.initiate()\""]⟩,
          Action.warn "ERROR INITIAING REPLICA: exit status 1"]) := by
  decide

/-- C10: when `StartWithOptions` returns a handle and the message of the
classifier is the port `p`, then `Port()` of the handle is `p` and `URI()` is
`mongodb://localhost:` followed by `p` in decimal. -/
theorem handle_port_is_reported_port (ToLower : String → String) (w : World) (opts : Options)
    (s : Server) (p : Int)
    (hs : (StartWithOptions ToLower w opts).1 = (some s, none))
    (hp : stdoutHandler ToLower w.stdout = [Msg.port p]) :
    s.Port = p ∧ s.URI = "mongodb://localhost:" ++ fmtInt p := by
  have hport : s.port = p := by
    unfold StartWithOptions at hs
    rw [hp] at hs
    split at hs
    · simp at hs
    split at hs
    · simp at hs
    split at hs
    · simp at hs
    dsimp only at hs
    split at hs
    · simp at hs
    split at hs
    · simp at hs
    split at hs
    · simp at hs
    · simp at hs
    rename_i port hsel
    have hpp : port = p := by
      unfold select at hsel
      split at hsel
      · simp at hsel
      · simpa using hsel.symm
    split at hs
    · split at hs
      · simp at hs
      · simp only [Prod.mk.injEq, Option.some.injEq, and_true] at hs
        rw [← hs, hpp]
    · simp only [Prod.mk.injEq, Option.some.injEq, and_true] at hs
      rw [← hs, hpp]
  exact ⟨hport, by rw [Server.URI, hport]⟩

/-- Instance of `handle_port_is_reported_port`: configured port 27018, ready
line for port 27018, and the URI `mongodb://localhost:27018`. -/
theorem handle_port_is_reported_port_witness :
    (StartWithOptions asciiToLower
        (startedWorld ["2019 I NETWORK  [initandlisten] waiting for connections on port 27018"]
          false none none none)
        ⟨27018, false⟩).1 = (some sampleServer, none) ∧
    stdoutHandler asciiToLower
        ["2019 I NETWORK  [initandlisten] waiting for connections on port 27018"]
      = [Msg.port 27018] ∧
    (sampleServer.Port = 27018 ∧
      sampleServer.URI = "mongodb://localhost:" ++ fmtInt 27018) ∧
    sampleServer.URI = "mongodb://localhost:27018" :=
  ⟨by decide, by decide,
    handle_port_is_reported_port asciiToLower
      (startedWorld ["2019 I NETWORK  [initandlisten] waiting for connections on port 27018"]
        false none none none)
      ⟨27018, false⟩ sampleServer 27018 (by decide) (by decide),
    by decide⟩

end Strikememongo
